import Mathlib

/-!
Shallow embedding of the PSY-Q linker object decoder in src/PSX/psyqobj.py.

Bytes are modelled as Nat, buffers as List Nat, and the parser state
(cursor index plus the accumulating object file) as an explicit record.
Python exceptions that the decoder can actually raise are modelled as
values of PyErr carried in Except:
  - struct.error, raised by struct.unpack when the slice returned by a
    read is not exactly the requested width (Python slicing truncates);
  - KeyError, raised by PsyqObjFile.get_current_section when
    sections[current_section] has no entry;
  - NameError, raised inside parse_program_type where log_warn formats
    the undefined name program_type.
Python slicing itself never fails and int.from_bytes of an empty slice
is 0, so the primitive readers are total.
-/

namespace PsyqObj

/-- Python slice data[i:j] for non-negative bounds: drop i, take j - i. -/
def pySlice (data : List Nat) (i j : Nat) : List Nat :=
  (data.drop i).take (j - i)

/-- Python int.from_bytes with the default big-endian order; b"" gives 0. -/
def intFromBytes (bs : List Nat) : Nat :=
  bs.foldl (fun a b => a * 256 + b) 0

/-- The Python exceptions the decoder can raise. -/
inductive PyErr where
  | structError
  | keyError
  | nameError
deriving DecidableEq, Repr

/-- struct.unpack("<H", bs)[0]: exactly two bytes or struct.error. -/
def unpackU16le : List Nat → Except PyErr Nat
  | [a, b] => .ok (a + 256 * b)
  | _ => .error .structError

/-- struct.unpack("<I", bs)[0]: exactly four bytes or struct.error. -/
def unpackU32le : List Nat → Except PyErr Nat
  | [a, b, c, d] => .ok (a + 256 * b + 65536 * c + 16777216 * d)
  | _ => .error .structError

/-- class PsyqSection: offset and size start at 0 and are filled by BYTES. -/
structure PsyqSection where
  index : Nat
  group : Nat
  alignment : Nat
  name : List Nat
  offset : Nat
  size : Nat
deriving DecidableEq, Repr

/-- class PsyqImportedSymbol: index is the raw two-byte slice, since the
source stores the result of read_word without unpacking it. -/
structure PsyqImportedSymbol where
  index : List Nat
  name : List Nat
deriving DecidableEq, Repr

/-- class PsyqExportedSymbol: index and section_index are raw two-byte
slices (read_word is not unpacked for them); offset is unpacked. -/
structure PsyqExportedSymbol where
  index : List Nat
  section_index : List Nat
  offset : Nat
  name : List Nat
deriving DecidableEq, Repr

/-- class PsyqRelocation, with its constructor defaults. -/
structure PsyqRelocation where
  reloc_type : Nat
  offset : Nat
  expression : String
deriving DecidableEq, Repr

/-- class PsyqObjFile. program_type is an attribute that does not exist
until resolve_opcode assigns it, hence Option. -/
structure PsyqObjFile where
  sections : List (Nat × PsyqSection)
  imports : List PsyqImportedSymbol
  exports : List PsyqExportedSymbol
  relocations : List PsyqRelocation
  current_section : Nat
  program_type : Option Nat
deriving DecidableEq, Repr

/-- Python dict assignment d[k] = v: overwrite in place if the key exists,
otherwise append; insertion order is preserved. -/
def dictInsert (k : Nat) (v : PsyqSection) :
    List (Nat × PsyqSection) → List (Nat × PsyqSection)
  | [] => [(k, v)]
  | (k₂, v₂) :: rest =>
    if k₂ = k then (k, v) :: rest else (k₂, v₂) :: dictInsert k v rest

/-- PsyqObjFile.get_current_section: self.sections[self.current_section];
a missing key raises KeyError. -/
def PsyqObjFile.get_current_section (o : PsyqObjFile) :
    Except PyErr PsyqSection :=
  match o.sections.lookup o.current_section with
  | some sec => .ok sec
  | none => .error .keyError

/-- The PsyqObjFile constructor: everything empty, current_section 0. -/
def initObjFile : PsyqObjFile :=
  { sections := [], imports := [], exports := [], relocations := [],
    current_section := 0, program_type := none }

/-- OBJView parse state: self.index and self.objFile. -/
structure PState where
  index : Nat
  objFile : PsyqObjFile
deriving DecidableEq, Repr

/-- OBJView.read_bytes: val = data[index : index+length]; index += length.
Python slicing never fails; a short or empty slice is returned as-is and
the index advances by the full requested length regardless. -/
def read_bytes (data : List Nat) (s : PState) (length : Nat) :
    List Nat × PState :=
  (pySlice data s.index (s.index + length), { s with index := s.index + length })

/-- OBJView.read_byte. -/
def read_byte (data : List Nat) (s : PState) : List Nat × PState :=
  read_bytes data s 1

/-- OBJView.read_word. -/
def read_word (data : List Nat) (s : PState) : List Nat × PState :=
  read_bytes data s 2

/-- OBJView.read_dword. -/
def read_dword (data : List Nat) (s : PState) : List Nat × PState :=
  read_bytes data s 4

/-- OBJView.parse_program_type: reads one byte; for a value other than 7
or 9 the log_warn call formats the undefined name program_type, raising
NameError before the function can return. -/
def parse_program_type (data : List Nat) (s : PState) :
    Except PyErr (Nat × PState) :=
  let r := read_byte data s
  let value := intFromBytes r.1
  if value ≠ 7 ∧ value ≠ 9 then .error .nameError
  else .ok (value, r.2)

/-- OBJView.parse_section: u16 index, u16 group, u8 alignment, then a
length-prefixed name; offset and size start at 0. -/
def parse_section (data : List Nat) (s : PState) :
    Except PyErr (PsyqSection × PState) :=
  let rIdx := read_word data s
  match unpackU16le rIdx.1 with
  | .error e => .error e
  | .ok index =>
    let rGrp := read_word data rIdx.2
    match unpackU16le rGrp.1 with
    | .error e => .error e
    | .ok group =>
      let rAl := read_byte data rGrp.2
      let alignment := intFromBytes rAl.1
      let rLen := read_byte data rAl.2
      let name_len := intFromBytes rLen.1
      let rName := read_bytes data rLen.2 name_len
      .ok ({ index := index, group := group, alignment := alignment,
             name := rName.1, offset := 0, size := 0 }, rName.2)

/-- OBJView.parse_imported_symbol: the index is kept as the raw two-byte
slice; then a length-prefixed name. Total, since nothing here unpacks. -/
def parse_imported_symbol (data : List Nat) (s : PState) :
    PsyqImportedSymbol × PState :=
  let rIdx := read_word data s
  let rLen := read_byte data rIdx.2
  let name_len := intFromBytes rLen.1
  let rName := read_bytes data rLen.2 name_len
  ({ index := rIdx.1, name := rName.1 }, rName.2)

/-- OBJView.parse_exported_symbol: raw two-byte index and section_index,
unpacked u32 offset, then a length-prefixed name. -/
def parse_exported_symbol (data : List Nat) (s : PState) :
    Except PyErr (PsyqExportedSymbol × PState) :=
  let rIdx := read_word data s
  let rSec := read_word data rIdx.2
  let rOff := read_dword data rSec.2
  match unpackU32le rOff.1 with
  | .error e => .error e
  | .ok offset =>
    let rLen := read_byte data rOff.2
    let name_len := intFromBytes rLen.1
    let rName := read_bytes data rLen.2 name_len
    .ok ({ index := rIdx.1, section_index := rSec.1, offset := offset,
           name := rName.1 }, rName.2)

/-- OBJView.parse_bytes: looks up the current section first (KeyError when
missing), reads a u16 size, stores size and the position right after the
size field into the section, then skips size payload bytes. -/
def parse_bytes (data : List Nat) (s : PState) : Except PyErr PState :=
  match s.objFile.get_current_section with
  | .error e => .error e
  | .ok sec =>
    let rSize := read_word data s
    match unpackU16le rSize.1 with
    | .error e => .error e
    | .ok size =>
      let sec₂ := { sec with size := size, offset := rSize.2.index }
      let obj := { rSize.2.objFile with
        sections := dictInsert rSize.2.objFile.current_section sec₂
          rSize.2.objFile.sections }
      .ok (read_bytes data { rSize.2 with objFile := obj } size).2

/-- OBJView.parse_switch: one u16. -/
def parse_switch (data : List Nat) (s : PState) :
    Except PyErr (Nat × PState) :=
  let r := read_word data s
  match unpackU16le r.1 with
  | .error e => .error e
  | .ok v => .ok (v, r.2)

/-- OBJView.parse_relocation: requires the current section, reads the
type byte and the raw u16 offset, builds a PsyqRelocation locally and
drops it: the object file is never changed and no expression is decoded
(the record is never appended in the source). -/
def parse_relocation (data : List Nat) (s : PState) : Except PyErr PState :=
  match s.objFile.get_current_section with
  | .error e => .error e
  | .ok sec =>
    let rType := read_byte data s
    let rOff := read_word data rType.2
    match unpackU16le rOff.1 with
    | .error e => .error e
    | .ok raw =>
      let reloc : PsyqRelocation :=
        { reloc_type := intFromBytes rType.1, offset := raw + sec.offset,
          expression := "" }
      let _ := reloc
      .ok rOff.2

-- The PsyqOpcode enum values that resolve_opcode dispatches on.
namespace PsyqOpcode

abbrev END : Nat := 0

abbrev BYTES : Nat := 2

abbrev SWITCH : Nat := 6

abbrev RELOCATION : Nat := 10

abbrev EXPORTED_SYMBOL : Nat := 12

abbrev IMPORTED_SYMBOL : Nat := 14

abbrev SECTION : Nat := 16

abbrev PROGRAMTYPE : Nat := 46

end PsyqOpcode

/-- OBJView.resolve_opcode: read one opcode byte and dispatch. An opcode
with no branch — including END = 0 — falls through the elif chain with no
effect beyond consuming the opcode byte. -/
def resolve_opcode (data : List Nat) (s : PState) : Except PyErr PState :=
  let r := read_byte data s
  let opcode := intFromBytes r.1
  if opcode = PsyqOpcode.PROGRAMTYPE then
    match parse_program_type data r.2 with
    | .error e => .error e
    | .ok (v, s₂) =>
      .ok { s₂ with objFile := { s₂.objFile with program_type := some v } }
  else if opcode = PsyqOpcode.SECTION then
    match parse_section data r.2 with
    | .error e => .error e
    | .ok (sec, s₂) =>
      .ok { s₂ with objFile :=
        { s₂.objFile with sections := dictInsert sec.index sec s₂.objFile.sections } }
  else if opcode = PsyqOpcode.IMPORTED_SYMBOL then
    let r₂ := parse_imported_symbol data r.2
    .ok { r₂.2 with objFile :=
      { r₂.2.objFile with imports := r₂.2.objFile.imports ++ [r₂.1] } }
  else if opcode = PsyqOpcode.EXPORTED_SYMBOL then
    match parse_exported_symbol data r.2 with
    | .error e => .error e
    | .ok (sym, s₂) =>
      .ok { s₂ with objFile :=
        { s₂.objFile with exports := s₂.objFile.exports ++ [sym] } }
  else if opcode = PsyqOpcode.SWITCH then
    match parse_switch data r.2 with
    | .error e => .error e
    | .ok (v, s₂) =>
      .ok { s₂ with objFile := { s₂.objFile with current_section := v } }
  else if opcode = PsyqOpcode.BYTES then
    parse_bytes data r.2
  else if opcode = PsyqOpcode.RELOCATION then
    parse_relocation data r.2
  else
    .ok r.2

/-- The while loop of OBJView.parse, with explicit fuel. Every successful
resolve_opcode advances the index by at least one (it starts with
read_byte), so any fuel of at least data.length + 1 runs the loop to
completion; parse below supplies exactly that. -/
def parseLoop (data : List Nat) : Nat → PState → Except PyErr PState
  | 0, s => .ok s
  | fuel + 1, s =>
    if s.index < data.length then
      match resolve_opcode data s with
      | .error e => .error e
      | .ok s₂ => parseLoop data fuel s₂
    else .ok s

/-- OBJView.parse: skip the 4-byte header, then dispatch opcodes while
index < length. -/
def parse (data : List Nat) : Except PyErr PState :=
  parseLoop data (data.length + 1) { index := 4, objFile := initObjFile }

/-- b"LNK\x02". -/
def magicLNK : List Nat := [76, 78, 75, 2]

/-- OBJView.is_valid_for_data: reject when data[0:4] differs from the
magic, accept otherwise. -/
def is_valid_for_data (data : List Nat) : Bool :=
  if pySlice data 0 4 ≠ magicLNK then false else true

theorem unpackU16le_err (w : List Nat) (h : w.length ≠ 2) :
    unpackU16le w = .error .structError := by
  unfold unpackU16le
  split
  · simp_all
  · rfl

theorem unpackU32le_err (w : List Nat) (h : w.length ≠ 4) :
    unpackU32le w = .error .structError := by
  unfold unpackU32le
  split
  · simp_all
  · rfl

theorem parse_program_type_objFile (data : List Nat) (s : PState) (v : Nat)
    (s₂ : PState) (h : parse_program_type data s = .ok (v, s₂)) :
    s₂.objFile = s.objFile := by
  simp only [parse_program_type, read_byte, read_bytes] at h
  split at h
  · cases h
  · simp only [Except.ok.injEq, Prod.mk.injEq] at h
    rw [← h.2]

theorem parse_section_objFile (data : List Nat) (s : PState) (sec : PsyqSection)
    (s₂ : PState) (h : parse_section data s = .ok (sec, s₂)) :
    s₂.objFile = s.objFile := by
  simp only [parse_section, read_word, read_byte, read_bytes] at h
  split at h
  · cases h
  · split at h
    · cases h
    · simp only [Except.ok.injEq, Prod.mk.injEq] at h
      rw [← h.2]

theorem parse_imported_symbol_objFile (data : List Nat) (s : PState) :
    (parse_imported_symbol data s).2.objFile = s.objFile := rfl

theorem parse_exported_symbol_objFile (data : List Nat) (s : PState)
    (sym : PsyqExportedSymbol) (s₂ : PState)
    (h : parse_exported_symbol data s = .ok (sym, s₂)) :
    s₂.objFile = s.objFile := by
  simp only [parse_exported_symbol, read_word, read_dword, read_byte, read_bytes] at h
  split at h
  · cases h
  · simp only [Except.ok.injEq, Prod.mk.injEq] at h
    rw [← h.2]

theorem parse_switch_objFile (data : List Nat) (s : PState) (v : Nat)
    (s₂ : PState) (h : parse_switch data s = .ok (v, s₂)) :
    s₂.objFile = s.objFile := by
  simp only [parse_switch, read_word, read_bytes] at h
  split at h
  · cases h
  · simp only [Except.ok.injEq, Prod.mk.injEq] at h
    rw [← h.2]

theorem parse_bytes_current_section (data : List Nat) (s s₂ : PState)
    (h : parse_bytes data s = .ok s₂) :
    s₂.objFile.current_section = s.objFile.current_section := by
  simp only [parse_bytes, read_word, read_bytes] at h
  split at h
  · cases h
  · split at h
    · cases h
    · simp only [Except.ok.injEq] at h
      rw [← h]

theorem parse_relocation_objFile (data : List Nat) (s s₂ : PState)
    (h : parse_relocation data s = .ok s₂) :
    s₂.objFile = s.objFile := by
  simp only [parse_relocation, read_byte, read_word, read_bytes] at h
  split at h
  · cases h
  · split at h
    · cases h
    · simp only [Except.ok.injEq] at h
      rw [← h]

theorem resolve_opcode_skip (data : List Nat) (s : PState)
    (h : intFromBytes (pySlice data s.index (s.index + 1)) ∉
      ([46, 16, 14, 12, 6, 2, 10] : List Nat)) :
    resolve_opcode data s = .ok { s with index := s.index + 1 } := by
  simp only [List.mem_cons, List.not_mem_nil, or_false, not_or] at h
  obtain ⟨h46, h16, h14, h12, h6, h2, h10⟩ := h
  simp only [resolve_opcode, read_byte, read_bytes]
  rw [if_neg h46, if_neg h16, if_neg h14, if_neg h12, if_neg h6, if_neg h2, if_neg h10]

theorem parseLoop_succ (data : List Nat) (fuel : Nat) (s : PState) :
    parseLoop data (fuel + 1) s =
      if s.index < data.length then
        match resolve_opcode data s with
        | .error e => .error e
        | .ok s₂ => parseLoop data fuel s₂
      else .ok s := rfl


/-- Claim C9: is_valid_for_data returns true exactly when the four bytes
at offset 0 are b"LNK\x02" (76, 78, 75, 2); any other prefix, including a
buffer shorter than four bytes, is rejected. -/
theorem claim_C9_is_valid_for_data_iff_magic (data : List Nat) :
    is_valid_for_data data = true ↔ ∃ rest, data = magicLNK ++ rest := by
  unfold is_valid_for_data
  constructor
  · intro h
    by_cases hm : pySlice data 0 4 = magicLNK
    · refine ⟨data.drop 4, ?_⟩
      have h4 : data.take 4 = magicLNK := by simpa [pySlice] using hm
      calc data = data.take 4 ++ data.drop 4 := (List.take_append_drop 4 data).symm
        _ = magicLNK ++ data.drop 4 := by rw [h4]
    · simp [hm] at h
  · rintro ⟨rest, rfl⟩
    have hm : pySlice (magicLNK ++ rest) 0 4 = magicLNK := by
      simp [pySlice, magicLNK]
    simp [hm]

/-- Claim C3 counterexample: reading two bytes from the one-byte buffer
[7] does not fail with any error; it returns the partial slice [7] and
leaves the cursor at 2, beyond the buffer length 1 — contradicting both
the TruncatedInput failure and the position-in-[0, length] invariant. -/
theorem claim_C3_counterexample :
    read_bytes [7] { index := 0, objFile := initObjFile } 2 =
      ([7], { index := 2, objFile := initObjFile }) ∧ ¬ (2 ≤ [7].length) :=
  ⟨rfl, by decide⟩

/-- Claim C3 amended: the cursor layer never fails. read_bytes n returns
min n (length - index) bytes (possibly fewer than requested), always
advances the index by the full n (possibly past the end), and never
touches the object file; truncation only surfaces later, when
struct.unpack demands an exact width (struct.error for a u16 slice whose
length is not 2 or a u32 slice whose length is not 4), while
int.from_bytes of an empty single-byte read silently yields 0. -/
theorem claim_C3_amended_reads (data : List Nat) (s : PState) (n : Nat) :
    (read_bytes data s n).1.length = min n (data.length - s.index) ∧
    (read_bytes data s n).2.index = s.index + n ∧
    (read_bytes data s n).2.objFile = s.objFile ∧
    (∀ w : List Nat, w.length ≠ 2 → unpackU16le w = .error .structError) ∧
    (∀ w : List Nat, w.length ≠ 4 → unpackU32le w = .error .structError) ∧
    intFromBytes [] = 0 := by
  refine ⟨?_, rfl, rfl, unpackU16le_err, unpackU32le_err, rfl⟩
  simp [read_bytes, pySlice]

/-- Witness for claim C3's amended theorem at a concrete input. -/
theorem claim_C3_amended_witness :
    unpackU16le [1] = Except.error PyErr.structError :=
  (claim_C3_amended_reads [7] { index := 0, objFile := initObjFile } 2).2.2.2.1
    [1] (by decide)

/-- The claim C4 scenario buffer: magic, PROGRAMTYPE(7), SECTION(index 0,
group 0, alignment 0, name ".text"), SWITCH(0), BYTES(size 4, 4 filler
bytes), END. -/
def c4buf : List Nat :=
  [76, 78, 75, 2, 46, 7, 16, 0, 0, 0, 0, 0, 5, 46, 116, 101, 120, 116,
   6, 0, 0, 2, 4, 0, 0, 0, 0, 0, 0]

/-- Claim C4 counterexample: on the scenario buffer the single section's
offset is 24 — the position immediately after the BYTES size field — not
9 as the claim states. -/
theorem claim_C4_counterexample :
    (parse c4buf).map
        (fun s => (s.objFile.sections.lookup 0).map PsyqSection.offset) =
      .ok (some 24) ∧ (24 : Nat) ≠ 9 := ⟨rfl, by decide⟩

/-- Claim C4 amended: parsing the scenario buffer yields exactly one
section, keyed 0, with offset 24 (the position immediately after the size
field) and size 4, empty imports, exports and relocations, and
program_type 7. -/
theorem claim_C4_amended_scenario :
    parse c4buf = Except.ok
      { index := 29,
        objFile := { sections := [(0, { index := 0, group := 0, alignment := 0,
                                        name := [46, 116, 101, 120, 116],
                                        offset := 24, size := 4 })],
                     imports := [], exports := [], relocations := [],
                     current_section := 0, program_type := some 7 } } := rfl

/-- Claim C7: on PROGRAMTYPE value 8 (neither 7 nor 9) the parse aborts
with NameError — the log_warn call formats the undefined name
program_type — instead of recording the value, warning and continuing. -/
theorem claim_C7_program_type_name_error :
    parse [76, 78, 75, 2, 46, 8] = .error PyErr.nameError := rfl

/-- The claim C1 failing input: magic, SECTION(index 0, empty name),
SWITCH(0), RELOCATION(type 16, raw offset 5). -/
def c1buf : List Nat :=
  [76, 78, 75, 2, 16, 0, 0, 0, 0, 0, 0, 6, 0, 0, 10, 16, 5, 0]

/-- Claim C1: the RELOCATION record is consumed in full (the index
reaches 18, the end of the buffer, so the type byte and u16 offset were
read with a current section in place) yet the relocations list is still
empty afterwards: parse_relocation builds the record locally and drops
it, never appending and never decoding an expression. -/
theorem claim_C1_relocation_discarded :
    (parse c1buf).map (fun s => (s.objFile.relocations, s.index)) =
      .ok ([], 18) := rfl

/-- Claim C2 counterexample: opcode 99 is not in the known opcode set,
yet the parse does not fail at its offset (4): the byte is silently
skipped and the following PROGRAMTYPE record is still processed. -/
theorem claim_C2_counterexample :
    parse [76, 78, 75, 2, 99, 46, 7] =
      Except.ok { index := 7,
                  objFile := { initObjFile with program_type := some 7 } } := rfl

/-- Claim C2 amended: an opcode byte that matches none of the dispatched
values 46, 16, 14, 12, 6, 2, 10 is silently ignored: resolve_opcode
consumes exactly the opcode byte, changes nothing else, and returns
success, so parsing continues at the next byte. -/
theorem claim_C2_amended_unknown_opcode_skipped (data : List Nat) (s : PState)
    (h : intFromBytes (pySlice data s.index (s.index + 1)) ∉
      ([46, 16, 14, 12, 6, 2, 10] : List Nat)) :
    resolve_opcode data s = .ok { s with index := s.index + 1 } :=
  resolve_opcode_skip data s h

/-- Witness for claim C2's amended theorem at a concrete input. -/
theorem claim_C2_amended_witness :
    resolve_opcode [99] { index := 0, objFile := initObjFile } =
      .ok { index := 1, objFile := initObjFile } :=
  claim_C2_amended_unknown_opcode_skipped [99]
    { index := 0, objFile := initObjFile } (by decide)

/-- Claim C6 counterexample: on magic ++ [0, 46, 7] the claim predicts
the loop stops at the END opcode, leaving program_type unset; the code
instead skips the 0 byte and processes the PROGRAMTYPE record that
follows, finishing with program_type = some 7. -/
theorem claim_C6_counterexample :
    parse [76, 78, 75, 2, 0, 46, 7] =
      Except.ok { index := 7,
                  objFile := { initObjFile with program_type := some 7 } } ∧
    some 7 ≠ (none : Option Nat) := ⟨rfl, by decide⟩

/-- Claim C6 amended: opcode 0 (END) has no dispatch branch, so
resolve_opcode only consumes the opcode byte, and the parse loop does not
terminate there: while unread bytes remain it simply continues with the
next byte; the loop stops only when index reaches the buffer length. -/
theorem claim_C6_amended_end_is_skipped (data : List Nat) (s : PState)
    (h : intFromBytes (pySlice data s.index (s.index + 1)) = PsyqOpcode.END)
    (hlt : s.index < data.length) (fuel : Nat) :
    resolve_opcode data s = .ok { s with index := s.index + 1 } ∧
    parseLoop data (fuel + 1) s =
      parseLoop data fuel { s with index := s.index + 1 } := by
  have hskip := resolve_opcode_skip data s (by rw [h]; decide)
  refine ⟨hskip, ?_⟩
  rw [parseLoop_succ, if_pos hlt, hskip]

/-- Witness for claim C6's amended theorem at a concrete input. -/
theorem claim_C6_amended_witness :
    resolve_opcode [0, 99] { index := 0, objFile := initObjFile } =
      .ok { index := 1, objFile := initObjFile } ∧
    parseLoop [0, 99] 2 { index := 0, objFile := initObjFile } =
      parseLoop [0, 99] 1 { index := 1, objFile := initObjFile } :=
  claim_C6_amended_end_is_skipped [0, 99]
    { index := 0, objFile := initObjFile } (by decide) (by decide) 1

/-- Claim C5: whenever a BYTES or RELOCATION record is decoded with no
section stored under the current section index — which covers every
input in which neither a SWITCH nor a SECTION record has yet established
a valid current section, whether the section map is empty or holds only
other indices — the record fails at the sections[current_section] lookup
(KeyError, the NoCurrentSection condition) before any byte of the record
body is read, with no out-of-bounds access and no silent defaulting. In
particular a parse whose first record is BYTES or RELOCATION fails this
way for every buffer remainder, and so does the parse of
magic ++ SECTION(index 3) ++ BYTES (or RELOCATION), where the section
map is non-empty but no section with the current index 0 exists. -/
theorem claim_C5_no_current_section (data : List Nat) (s : PState)
    (h : s.objFile.sections.lookup s.objFile.current_section = none) :
    parse_bytes data s = .error .keyError ∧
    parse_relocation data s = .error .keyError ∧
    parse [76, 78, 75, 2, 16, 3, 0, 0, 0, 0, 0, 2, 4, 0] = .error .keyError ∧
    parse [76, 78, 75, 2, 16, 3, 0, 0, 0, 0, 0, 10] = .error .keyError ∧
    ∀ rest : List Nat,
      parse (magicLNK ++ PsyqOpcode.BYTES :: rest) = .error .keyError ∧
      parse (magicLNK ++ PsyqOpcode.RELOCATION :: rest) = .error .keyError := by
  refine ⟨?_, ?_, rfl, rfl, ?_⟩
  · simp [parse_bytes, PsyqObjFile.get_current_section, h]
  · simp [parse_relocation, PsyqObjFile.get_current_section, h]
  · intro rest
    constructor
    · have hlen : (magicLNK ++ PsyqOpcode.BYTES :: rest).length = rest.length + 5 := by
        simp [magicLNK]
      rw [parse, hlen, parseLoop_succ]
      have hlt : (4 : Nat) < (magicLNK ++ PsyqOpcode.BYTES :: rest).length := by
        rw [hlen]; omega
      rw [if_pos hlt]
      have hres : resolve_opcode (magicLNK ++ PsyqOpcode.BYTES :: rest)
          { index := 4, objFile := initObjFile } = .error .keyError := by
        have hslice : pySlice (magicLNK ++ PsyqOpcode.BYTES :: rest) 4 5 = [2] := by
          simp [pySlice, magicLNK]
        simp [resolve_opcode, read_byte, read_bytes, hslice, intFromBytes,
          parse_bytes, PsyqObjFile.get_current_section, initObjFile]
      rw [hres]
    · have hlen : (magicLNK ++ PsyqOpcode.RELOCATION :: rest).length = rest.length + 5 := by
        simp [magicLNK]
      rw [parse, hlen, parseLoop_succ]
      have hlt : (4 : Nat) < (magicLNK ++ PsyqOpcode.RELOCATION :: rest).length := by
        rw [hlen]; omega
      rw [if_pos hlt]
      have hres : resolve_opcode (magicLNK ++ PsyqOpcode.RELOCATION :: rest)
          { index := 4, objFile := initObjFile } = .error .keyError := by
        have hslice : pySlice (magicLNK ++ PsyqOpcode.RELOCATION :: rest) 4 5 = [10] := by
          simp [pySlice, magicLNK]
        simp [resolve_opcode, read_byte, read_bytes, hslice, intFromBytes,
          parse_relocation, PsyqObjFile.get_current_section, initObjFile]
      rw [hres]

/-- Witness for claim C5's theorem at a concrete input whose section map
is non-empty (it holds only index 3) while current_section is 0. -/
theorem claim_C5_witness :
    parse_bytes []
      { index := 0,
        objFile := { initObjFile with
          sections := [(3, { index := 3, group := 0, alignment := 0,
                             name := [], offset := 0, size := 0 })] } } =
      .error .keyError :=
  (claim_C5_no_current_section []
    { index := 0,
      objFile := { initObjFile with
        sections := [(3, { index := 3, group := 0, alignment := 0,
                           name := [], offset := 0, size := 0 })] } } rfl).1


/-- Claim C10: only a SWITCH record (opcode 6) changes current_section.
Whenever resolve_opcode succeeds on a buffer whose opcode byte is not 6,
the current-section selection is unchanged; and when the opcode byte is
16 (SECTION) the successful step only inserts the decoded section into
the section map, still leaving current_section as it was. -/
theorem claim_C10_only_switch_changes_current (data : List Nat) (s s₂ : PState)
    (hok : resolve_opcode data s = .ok s₂) :
    (intFromBytes (pySlice data s.index (s.index + 1)) ≠ PsyqOpcode.SWITCH →
      s₂.objFile.current_section = s.objFile.current_section) ∧
    (intFromBytes (pySlice data s.index (s.index + 1)) = PsyqOpcode.SECTION →
      ∃ sec : PsyqSection, s₂.objFile =
        { s.objFile with
          sections := dictInsert sec.index sec s.objFile.sections }) := by
  simp only [resolve_opcode, read_byte, read_bytes] at hok
  split at hok
  · rename_i h46
    split at hok
    · cases hok
    · rename_i v s₃ heq
      injection hok with h
      subst h
      have hf : s₃.objFile = s.objFile :=
        parse_program_type_objFile data { s with index := s.index + 1 } v s₃ heq
      constructor
      · intro _
        simp [hf]
      · intro h16
        rw [h46] at h16
        exact absurd h16 (by decide)
  · rename_i h46
    split at hok
    · rename_i h16
      split at hok
      · cases hok
      · rename_i sec s₃ heq
        injection hok with h
        subst h
        have hf : s₃.objFile = s.objFile :=
          parse_section_objFile data { s with index := s.index + 1 } sec s₃ heq
        constructor
        · intro _
          simp [hf]
        · intro _
          exact ⟨sec, by rw [hf]⟩
    · rename_i h16
      split at hok
      · rename_i h14
        injection hok with h
        subst h
        constructor
        · intro _
          rfl
        · intro hs
          rw [h14] at hs
          exact absurd hs (by decide)
      · rename_i h14
        split at hok
        · rename_i h12
          split at hok
          · cases hok
          · rename_i sym s₃ heq
            injection hok with h
            subst h
            have hf : s₃.objFile = s.objFile :=
              parse_exported_symbol_objFile data { s with index := s.index + 1 } sym s₃ heq
            constructor
            · intro _
              simp [hf]
            · intro hs
              rw [h12] at hs
              exact absurd hs (by decide)
        · rename_i h12
          split at hok
          · rename_i h6
            split at hok
            · cases hok
            · rename_i v s₃ heq
              constructor
              · intro hne
                exact absurd h6 hne
              · intro hs
                rw [h6] at hs
                exact absurd hs (by decide)
          · rename_i h6
            split at hok
            · rename_i h2
              have hf : s₂.objFile.current_section = s.objFile.current_section :=
                parse_bytes_current_section data { s with index := s.index + 1 } s₂ hok
              constructor
              · intro _
                exact hf
              · intro hs
                rw [h2] at hs
                exact absurd hs (by decide)
            · rename_i h2
              split at hok
              · rename_i h10
                have hf : s₂.objFile = s.objFile :=
                  parse_relocation_objFile data { s with index := s.index + 1 } s₂ hok
                constructor
                · intro _
                  rw [hf]
                · intro hs
                  rw [h10] at hs
                  exact absurd hs (by decide)
              · rename_i h10
                injection hok with h
                subst h
                constructor
                · intro _
                  rfl
                · intro hs
                  exact absurd hs h16

/-- Witness for claim C10's theorem: a concrete SECTION record (opcode
16, index 3, group 0, alignment 1, empty name) leaves current_section at
its prior value 0. -/
theorem claim_C10_witness :
    ({ index := 7,
       objFile := { initObjFile with
         sections := [(3, { index := 3, group := 0, alignment := 1,
                            name := [], offset := 0, size := 0 })] } } :
        PState).objFile.current_section =
      ({ index := 0, objFile := initObjFile } : PState).objFile.current_section :=
  (claim_C10_only_switch_changes_current [16, 3, 0, 0, 0, 1, 0]
    { index := 0, objFile := initObjFile }
    { index := 7,
      objFile := { initObjFile with
        sections := [(3, { index := 3, group := 0, alignment := 1,
                           name := [], offset := 0, size := 0 })] } }
    rfl).1 (by decide)


/-- Closed form of parse_exported_symbol: the field widths and order it
reads from position s.index are index bytes [0,2), section_index bytes
[2,4), a u32 at [4,8) that must unpack, a length byte at [8,9) and that
many name bytes from 9 on. -/
theorem parse_exported_symbol_eq (data : List Nat) (s : PState) :
    parse_exported_symbol data s =
      match unpackU32le (pySlice data (s.index + 4) (s.index + 8)) with
      | .error e => .error e
      | .ok off =>
        .ok ({ index := pySlice data s.index (s.index + 2),
               section_index := pySlice data (s.index + 2) (s.index + 4),
               offset := off,
               name := pySlice data (s.index + 9)
                 (s.index + 9 + intFromBytes (pySlice data (s.index + 8) (s.index + 9))) },
             { s with index :=
                 s.index + 9 + intFromBytes (pySlice data (s.index + 8) (s.index + 9)) }) := rfl

/-- Claim C8: a successful dispatch of opcode 12 (EXPORTED_SYMBOL) reads
a two-byte index, a two-byte section_index, a little-endian u32 offset
and a length-prefixed name, in that order, and appends exactly that
ExportedSymbol at the end of the exports list; no other object-file field
changes, and nothing validates section_index against the section map —
the step succeeds for every object-file state whatsoever. -/
theorem claim_C8_exported_symbol_record (data : List Nat) (s s₂ : PState)
    (hop : intFromBytes (pySlice data s.index (s.index + 1)) =
      PsyqOpcode.EXPORTED_SYMBOL)
    (hok : resolve_opcode data s = .ok s₂) :
    (∃ off : Nat,
      unpackU32le (pySlice data (s.index + 5) (s.index + 9)) = .ok off ∧
      s₂.objFile.exports = s.objFile.exports ++
        [{ index := pySlice data (s.index + 1) (s.index + 3),
           section_index := pySlice data (s.index + 3) (s.index + 5),
           offset := off,
           name := pySlice data (s.index + 10)
             (s.index + 10 +
               intFromBytes (pySlice data (s.index + 9) (s.index + 10))) }]) ∧
    s₂.objFile.sections = s.objFile.sections ∧
    s₂.objFile.imports = s.objFile.imports ∧
    s₂.objFile.relocations = s.objFile.relocations ∧
    s₂.objFile.current_section = s.objFile.current_section ∧
    ∀ o : PsyqObjFile, ∃ s₃ : PState,
      resolve_opcode data { s with objFile := o } = .ok s₃ := by
  have hpe : parse_exported_symbol data { s with index := s.index + 1 } =
      match unpackU32le (pySlice data (s.index + 5) (s.index + 9)) with
      | .error e => .error e
      | .ok off =>
        .ok ({ index := pySlice data (s.index + 1) (s.index + 3),
               section_index := pySlice data (s.index + 3) (s.index + 5),
               offset := off,
               name := pySlice data (s.index + 10)
                 (s.index + 10 +
                   intFromBytes (pySlice data (s.index + 9) (s.index + 10))) },
             { index := s.index + 10 +
                 intFromBytes (pySlice data (s.index + 9) (s.index + 10)),
               objFile := s.objFile }) := rfl
  simp only [resolve_opcode, read_byte, read_bytes, hop,
    PsyqOpcode.EXPORTED_SYMBOL, PsyqOpcode.PROGRAMTYPE, PsyqOpcode.SECTION,
    PsyqOpcode.IMPORTED_SYMBOL, PsyqOpcode.SWITCH, PsyqOpcode.BYTES,
    PsyqOpcode.RELOCATION] at hok
  norm_num at hok
  rw [hpe] at hok
  split at hok
  · cases hok
  · rename_i sym s₃ heq
    injection hok with h
    subst h
    split at heq
    · cases heq
    · rename_i off huk
      injection heq with hp
      injection hp with hsym hstate
      subst hsym
      subst hstate
      refine ⟨⟨off, huk, by simp⟩, by simp, by simp, by simp, by simp, ?_⟩
      intro o
      have hpe₂ : parse_exported_symbol data { index := s.index + 1, objFile := o } =
          match unpackU32le (pySlice data (s.index + 5) (s.index + 9)) with
          | .error e => .error e
          | .ok off₂ =>
            .ok ({ index := pySlice data (s.index + 1) (s.index + 3),
                   section_index := pySlice data (s.index + 3) (s.index + 5),
                   offset := off₂,
                   name := pySlice data (s.index + 10)
                     (s.index + 10 +
                       intFromBytes (pySlice data (s.index + 9) (s.index + 10))) },
                 { index := s.index + 10 +
                     intFromBytes (pySlice data (s.index + 9) (s.index + 10)),
                   objFile := o }) := rfl
      refine ⟨{ index := s.index + 10 +
                  intFromBytes (pySlice data (s.index + 9) (s.index + 10)),
                objFile := { o with exports := o.exports ++
                  [{ index := pySlice data (s.index + 1) (s.index + 3),
                     section_index := pySlice data (s.index + 3) (s.index + 5),
                     offset := off,
                     name := pySlice data (s.index + 10)
                       (s.index + 10 +
                         intFromBytes (pySlice data (s.index + 9) (s.index + 10))) }] } },
             ?_⟩
      simp only [resolve_opcode, read_byte, read_bytes, hop,
        PsyqOpcode.EXPORTED_SYMBOL, PsyqOpcode.PROGRAMTYPE, PsyqOpcode.SECTION,
        PsyqOpcode.IMPORTED_SYMBOL, PsyqOpcode.SWITCH, PsyqOpcode.BYTES,
        PsyqOpcode.RELOCATION]
      norm_num
      rw [hpe₂, huk]


/-- Witness for claim C8's theorem: a concrete EXPORTED_SYMBOL record
(opcode 12, index bytes [1,0], section_index bytes [2,0] with no such
section defined, offset 5, one-byte name "A") is appended while
current_section stays 0. -/
theorem claim_C8_witness :
    ({ index := 11,
       objFile := { initObjFile with
         exports := [{ index := [1, 0], section_index := [2, 0],
                       offset := 5, name := [65] }] } } :
        PState).objFile.current_section =
      ({ index := 0, objFile := initObjFile } : PState).objFile.current_section :=
  (claim_C8_exported_symbol_record [12, 1, 0, 2, 0, 5, 0, 0, 0, 1, 65]
    { index := 0, objFile := initObjFile }
    { index := 11,
      objFile := { initObjFile with
        exports := [{ index := [1, 0], section_index := [2, 0],
                      offset := 5, name := [65] }] } }
    (by decide) rfl).2.2.2.2.1


theorem parse_program_type_mono (data : List Nat) (s : PState) (v : Nat)
    (s₂ : PState) (h : parse_program_type data s = .ok (v, s₂)) :
    s.index < s₂.index := by
  simp only [parse_program_type, read_byte, read_bytes] at h
  split at h
  · cases h
  · simp only [Except.ok.injEq, Prod.mk.injEq] at h
    rw [← h.2]
    simp

theorem parse_section_mono (data : List Nat) (s : PState) (sec : PsyqSection)
    (s₂ : PState) (h : parse_section data s = .ok (sec, s₂)) :
    s.index < s₂.index := by
  simp only [parse_section, read_word, read_byte, read_bytes] at h
  split at h
  · cases h
  · split at h
    · cases h
    · simp only [Except.ok.injEq, Prod.mk.injEq] at h
      rw [← h.2]
      simp
      omega

theorem parse_imported_symbol_mono (data : List Nat) (s : PState) :
    s.index < (parse_imported_symbol data s).2.index := by
  simp only [parse_imported_symbol, read_word, read_byte, read_bytes]
  omega

theorem parse_exported_symbol_mono (data : List Nat) (s : PState)
    (sym : PsyqExportedSymbol) (s₂ : PState)
    (h : parse_exported_symbol data s = .ok (sym, s₂)) :
    s.index < s₂.index := by
  simp only [parse_exported_symbol, read_word, read_dword, read_byte,
    read_bytes] at h
  split at h
  · cases h
  · simp only [Except.ok.injEq, Prod.mk.injEq] at h
    rw [← h.2]
    simp
    omega

theorem parse_switch_mono (data : List Nat) (s : PState) (v : Nat)
    (s₂ : PState) (h : parse_switch data s = .ok (v, s₂)) :
    s.index < s₂.index := by
  simp only [parse_switch, read_word, read_bytes] at h
  split at h
  · cases h
  · simp only [Except.ok.injEq, Prod.mk.injEq] at h
    rw [← h.2]
    simp

theorem parse_bytes_mono (data : List Nat) (s s₂ : PState)
    (h : parse_bytes data s = .ok s₂) : s.index < s₂.index := by
  simp only [parse_bytes, read_word, read_bytes] at h
  split at h
  · cases h
  · split at h
    · cases h
    · simp only [Except.ok.injEq] at h
      rw [← h]
      simp
      omega

theorem parse_relocation_mono (data : List Nat) (s s₂ : PState)
    (h : parse_relocation data s = .ok s₂) : s.index < s₂.index := by
  simp only [parse_relocation, read_byte, read_word, read_bytes] at h
  split at h
  · cases h
  · split at h
    · cases h
    · simp only [Except.ok.injEq] at h
      rw [← h]
      simp
      omega

/-- Every successful dispatch consumes at least the opcode byte, so the
cursor strictly advances: the parse loop of OBJView.parse terminates and
the fuel bound chosen in parse is always sufficient. -/
theorem resolve_opcode_progress (data : List Nat) (s s₂ : PState)
    (hok : resolve_opcode data s = .ok s₂) : s.index < s₂.index := by
  simp only [resolve_opcode, read_byte, read_bytes] at hok
  split at hok
  · split at hok
    · cases hok
    · rename_i v s₃ heq
      injection hok with h
      subst h
      have := parse_program_type_mono data { s with index := s.index + 1 } v s₃ heq
      simp at this ⊢
      omega
  · split at hok
    · split at hok
      · cases hok
      · rename_i sec s₃ heq
        injection hok with h
        subst h
        have := parse_section_mono data { s with index := s.index + 1 } sec s₃ heq
        simp at this ⊢
        omega
    · split at hok
      · injection hok with h
        subst h
        have := parse_imported_symbol_mono data { s with index := s.index + 1 }
        simp at this ⊢
        omega
      · split at hok
        · split at hok
          · cases hok
          · rename_i sym s₃ heq
            injection hok with h
            subst h
            have := parse_exported_symbol_mono data { s with index := s.index + 1 } sym s₃ heq
            simp at this ⊢
            omega
        · split at hok
          · split at hok
            · cases hok
            · rename_i v s₃ heq
              injection hok with h
              subst h
              have := parse_switch_mono data { s with index := s.index + 1 } v s₃ heq
              simp at this ⊢
              omega
          · split at hok
            · have := parse_bytes_mono data { s with index := s.index + 1 } s₂ hok
              simp at this
              omega
            · split at hok
              · have := parse_relocation_mono data { s with index := s.index + 1 } s₂ hok
                simp at this
                omega
              · injection hok with h
                subst h
                simp

/-- Supplying more fuel than needed never changes parseLoop's result:
once fuel covers the remaining bytes (each successful step consumes at
least one), the fuel embedding is exact for the source's while loop. -/
theorem parseLoop_fuel_irrelevant (data : List Nat) :
    ∀ (fuel extra : Nat) (s : PState), data.length ≤ s.index + fuel →
      parseLoop data (fuel + extra) s = parseLoop data fuel s := by
  intro fuel
  induction fuel with
  | zero =>
    intro extra s h
    cases extra with
    | zero => rfl
    | succ e =>
      rw [Nat.zero_add, parseLoop_succ, if_neg (by omega)]
      rfl
  | succ f ih =>
    intro extra s h
    have hcomm : f + 1 + extra = (f + extra) + 1 := by omega
    rw [hcomm, parseLoop_succ, parseLoop_succ]
    by_cases hlt : s.index < data.length
    · rw [if_pos hlt, if_pos hlt]
      cases hres : resolve_opcode data s with
      | error e => rfl
      | ok s₃ =>
        have hp := resolve_opcode_progress data s s₃ hres
        exact ih extra s₃ (by omega)
    · rw [if_neg hlt, if_neg hlt]

/-- parse's fixed fuel data.length + 1 is enough: any extra fuel gives
the same outcome. -/
theorem parse_fuel_exact (data : List Nat) (extra : Nat) :
    parseLoop data (data.length + 1 + extra)
      { index := 4, objFile := initObjFile } = parse data := by
  rw [parse]
  exact parseLoop_fuel_irrelevant data (data.length + 1) extra
    { index := 4, objFile := initObjFile } (by omega)

end PsyqObj
